import Mathlib

/-!
Shallow embedding of the plan-execution core of the repository
(`backend/agent/core.py`, `backend/agent/planner.py`), together with
spec-modelled stand-ins for the step executor and the `web_fetch` tool
handler, whose implementing modules are absent from the sources
(`executor.py` defines a different `TaskExecutor` with no `execute_step`
method, and `tools.py` defines no `ToolRegistry`).

Modelling conventions:
- Python dictionaries with a fixed field set become Lean structures.
- The wall clock (`datetime.now()`): each call consumes one tick of a
  counter; an external clock function `now : Nat → Nat` maps the tick
  index of the call to the timestamp recorded.  Strict monotonicity of
  the wall clock across successive calls is the `StrictMono now`
  hypothesis where a claim needs it.
- External collaborator calls (the language model) are modelled by their
  observable outcome passed in as a parameter: the parse outcome of the
  goal-understanding response (`Option Understanding`), the parse
  outcome of the planning response (`Option (List PlanStep)`), the step
  executor's outcome (`Except String String`, error = raised exception
  message), and the synthesis completion (`String → String` from the
  assembled user content to the returned text).
- Raised Python exceptions crossing a boundary become `Except.error`
  with the exception message.
-/

/-- `Understanding`: the structured goal extraction
(`core.py`, `understand_goal`). -/
structure Understanding where
  objective : String
  topics : List String
  deliverable_type : String
  scope : String
  success_criteria : List String
deriving Repr, DecidableEq

/-- One plan step (the dictionaries produced by `planner.py`).
`critical` is `Option Bool` because the key may be absent from a step
dictionary; `execute_plan` reads it with `step.get ("critical", True)`,
modelled as `critical.getD true`. -/
structure PlanStep where
  step_number : Nat
  description : String
  tool : String
  inputs : List (String × String)
  expected_output : String
  dependencies : List Nat
  critical : Option Bool
deriving Repr, DecidableEq

/-- One entry of `results["step_results"]` in `execute_plan`:
on success the dictionary has a `result` key, on failure an `error` key. -/
structure StepResult where
  step_number : Nat
  step : PlanStep
  result : Option String
  error : Option String
  status : String
  timestamp : Nat
deriving Repr, DecidableEq

/-- The `results` dictionary threaded through `execute_plan`. -/
structure ExecState where
  steps_completed : Nat
  total_steps : Nat
  step_results : List StepResult
  final_output : Option String
  status : String
deriving Repr, DecidableEq

/-- Payloads passed to `log_event` at its call sites in `core.py`. -/
inductive EventData where
  | understanding (u : Understanding)
  | planCreated (steps : Nat) (plan : List PlanStep)
  | step (s : PlanStep)
  | text (s : String)
  | stepRecord (r : StepResult)
  | synthesized (length : Nat)
  | agentError (e : String)
deriving Repr, DecidableEq

/-- One entry of `self.execution_log` (`core.py`, `log_event`). -/
structure LogEntry where
  timestamp : Nat
  event : String
  data : EventData
deriving Repr, DecidableEq

/-- The mutable agent state relevant to the claims: the tick counter of
the modelled wall clock and the append-only `execution_log`. -/
structure AgentState where
  tick : Nat
  log : List LogEntry
deriving Repr, DecidableEq

/-- `ResearchAgent.log_event` (`core.py` lines 199-205): appends an
entry whose timestamp is the current `datetime.now()` reading, i.e. the
clock applied to the current tick, and advances the tick. -/
def log_event (now : Nat → Nat) (st : AgentState) (event : String)
    (data : EventData) : AgentState :=
  { tick := st.tick + 1
    log := st.log ++ [{ timestamp := now st.tick, event := event, data := data }] }

/-- The fallback `understanding` dictionary built in the `except` branch
of `ResearchAgent.understand_goal` (`core.py` lines 47-55). -/
def default_understanding (goal : String) : Understanding :=
  { objective := goal
    topics := []
    deliverable_type := "report"
    scope := "comprehensive"
    success_criteria :=
      ["Complete research", "Accurate information", "Well-structured output"] }

/-- `ResearchAgent.understand_goal` (`core.py` lines 23-59).  `parsed`
is the outcome of `json.loads` on the collaborator's response text:
`none` models any parse failure (the bare `except` branch).  The
resulting understanding is logged under `goal_understood`. -/
def understand_goal (now : Nat → Nat) (parsed : Option Understanding)
    (goal : String) (st : AgentState) : Understanding × AgentState :=
  let u := parsed.getD (default_understanding goal)
  (u, log_event now st "goal_understood" (.understanding u))

/-- `TaskPlanner._create_fallback_plan` (`planner.py` lines 81-118). -/
def _create_fallback_plan (u : Understanding) : List PlanStep :=
  let topics := u.topics
  let base : List PlanStep :=
    [{ step_number := 1
       description := "Search for information about " ++ u.objective
       tool := "web_search"
       inputs := [("query", u.objective)]
       expected_output := "Initial research findings"
       dependencies := []
       critical := some true }]
  let withTopics : List PlanStep :=
    base ++ (topics.take 3).enum.map (fun p =>
      { step_number := p.1 + 2
        description := "Deep dive into " ++ p.2
        tool := "web_search"
        inputs := [("query", p.2)]
        expected_output := "Detailed information about " ++ p.2
        dependencies := [1]
        critical := some false })
  withTopics ++
    [{ step_number := withTopics.length + 1
       description := "Synthesize all findings"
       tool := "synthesize"
       inputs := [("sources", "all_previous_steps")]
       expected_output := "Comprehensive summary"
       dependencies := List.range' 1 withTopics.length
       critical := some true }]

/-- `TaskPlanner.create_plan` (`planner.py` lines 14-79).  `parsed` is
the outcome of extracting and JSON-parsing the bracketed array from the
collaborator's response; `none` models the `except` branch, which falls
back to `_create_fallback_plan`. -/
def planner_create_plan (parsed : Option (List PlanStep))
    (u : Understanding) : List PlanStep :=
  parsed.getD (_create_fallback_plan u)

/-- `ResearchAgent.create_plan` (`core.py` lines 61-65): delegates to
the planner and logs `plan_created` with the step count and the plan. -/
def create_plan (now : Nat → Nat) (parsed : Option (List PlanStep))
    (u : Understanding) (st : AgentState) : List PlanStep × AgentState :=
  let plan := planner_create_plan parsed u
  (plan, log_event now st "plan_created" (.planCreated plan.length plan))

/-- Single recursive pass of the `for i, step in enumerate(plan)` loop of
`ResearchAgent.execute_plan` (`core.py` lines 77-121).  `execStep` is the
outcome of `self.executor.execute_step(step, registry, context)` as a
function of the step and the accumulated `step_results` context
(`Except.error e` models a raised exception with message `e`).  `hasCb`
models whether a `progress_callback` is attached; the third component of
the result collects, in order, the `ExecState` snapshots passed to the
callback. -/
def execute_plan_go (now : Nat → Nat)
    (execStep : PlanStep → List StepResult → Except String String)
    (hasCb : Bool) :
    List PlanStep → Nat → ExecState → AgentState → List ExecState →
      ExecState × AgentState × List ExecState
  | [], _, results, st, ns => ({ results with status := "completed" }, st, ns)
  | step :: rest, i, results, st, ns =>
    let st1 := log_event now st "step_started" (.step step)
    match execStep step results.step_results with
    | .ok step_result =>
      let r : StepResult :=
        { step_number := i + 1, step := step, result := some step_result
          error := none, status := "completed", timestamp := now st1.tick }
      let st2 : AgentState := { st1 with tick := st1.tick + 1 }
      let results1 : ExecState :=
        { results with step_results := results.step_results ++ [r]
                       steps_completed := i + 1 }
      let ns1 := if hasCb then ns ++ [results1] else ns
      let st3 := log_event now st2 "step_completed" (.text step_result)
      execute_plan_go now execStep hasCb rest (i + 1) results1 st3 ns1
    | .error e =>
      let r : StepResult :=
        { step_number := i + 1, step := step, result := none
          error := some e, status := "failed", timestamp := now st1.tick }
      let st2 : AgentState := { st1 with tick := st1.tick + 1 }
      let results1 : ExecState :=
        { results with step_results := results.step_results ++ [r] }
      let st3 := log_event now st2 "step_failed" (.stepRecord r)
      if step.critical.getD true then
        ({ results1 with status := "failed" }, st3, ns)
      else
        execute_plan_go now execStep hasCb rest (i + 1) results1 st3 ns

/-- `ResearchAgent.execute_plan` (`core.py` lines 67-121): initialises
the `results` dictionary and runs the step loop. -/
def execute_plan (now : Nat → Nat)
    (execStep : PlanStep → List StepResult → Except String String)
    (hasCb : Bool) (plan : List PlanStep) (st : AgentState) :
    ExecState × AgentState × List ExecState :=
  execute_plan_go now execStep hasCb plan 0
    { steps_completed := 0, total_steps := plan.length, step_results := []
      final_output := none, status := "in_progress" } st []

/-- The findings block assembled by `ResearchAgent.synthesize_results`
(`core.py` lines 139-144): one markdown section per completed step
result, joined by blank lines. -/
def synthesis_findings (results : ExecState) : String :=
  "\n\n".intercalate
    ((results.step_results.filter (fun r => r.status == "completed")).map
      (fun r => "## " ++ r.step.description ++ "\n\n" ++ r.result.getD ""))

/-- `ResearchAgent.synthesize_results` (`core.py` lines 123-158).
`complete` is the collaborator: user content in, generated text out.
Logs `results_synthesized` with the output length. -/
def synthesize_results (now : Nat → Nat) (complete : String → String)
    (objective : String) (results : ExecState) (st : AgentState) :
    String × AgentState :=
  let content := synthesis_findings results
  let final_output := complete
    ("Original Goal: " ++ objective ++ "\n\nResearch Findings:\n\n" ++ content
      ++ "\n\nCreate the final comprehensive report.")
  (final_output,
    log_event now st "results_synthesized" (.synthesized final_output.length))

/-- The caller-facing envelope returned by `ResearchAgent.run`
(`core.py` lines 181-197).  The success branch fills `goal`,
`understanding`, `plan`, `execution`, `output`; the exception branch
fills `error`; both carry the log. -/
structure RunResult where
  success : Bool
  goal : Option String
  understanding : Option Understanding
  plan : Option (List PlanStep)
  execution : Option ExecState
  output : Option String
  error : Option String
  log : List LogEntry
deriving Repr, DecidableEq

/-- The values passed to `progress_callback` over one call of
`ResearchAgent.run`: the two coarse stage notifications, the per-step
`ExecState` snapshots forwarded from `execute_plan`, and a constructor
for a final notification carrying the whole `RunResult` (the code never
emits one; the constructor exists so that claims about such a
notification can be stated). -/
inductive Notification where
  | stage (name : String) (u : Option Understanding) (p : Option (List PlanStep))
  | progress (s : ExecState)
  | final (r : RunResult)
deriving Repr, DecidableEq

/-- Whether a notification is a final run-result notification. -/
def Notification.isFinal : Notification → Bool
  | .final _ => true
  | _ => false

/-- `ResearchAgent.run` (`core.py` lines 160-197).  The modelled
collaborator outcomes (`parsedU`, `parsedPlan`, `execStep`, `complete`)
are total, so the `except` branch of `run` (success `false`) is
unreachable in this embedding: every failure the claims concern is
already represented as a value.  The second component is the ordered
list of notifications delivered to the progress callback when one is
attached (`hasCb`). -/
def run (now : Nat → Nat) (parsedU : Option Understanding)
    (parsedPlan : Option (List PlanStep))
    (execStep : PlanStep → List StepResult → Except String String)
    (complete : String → String) (hasCb : Bool) (goal : String) :
    RunResult × List Notification :=
  let st0 : AgentState := { tick := 0, log := [] }
  let p1 := understand_goal now parsedU goal st0
  let u := p1.1
  let ns0 : List Notification :=
    if hasCb then [.stage "understanding" (some u) none] else []
  let p2 := create_plan now parsedPlan u p1.2
  let plan := p2.1
  let ns1 : List Notification :=
    if hasCb then ns0 ++ [.stage "planning" none (some plan)] else ns0
  let r3 := execute_plan now execStep hasCb plan p2.2
  let results := r3.1
  let ns2 := ns1 ++ r3.2.2.map Notification.progress
  let syn := synthesize_results now complete u.objective results r3.2.1
  let final_output := syn.1
  let results1 : ExecState := { results with final_output := some final_output }
  ({ success := true
     goal := some goal
     understanding := some u
     plan := some plan
     execution := some results1
     output := some final_output
     error := none
     log := syn.2.log }, ns2)

/-- A typed step failure: the uniform failure value of the spec's
StepExecutor, carrying the step's description and a human-readable
cause. -/
structure StepFailure where
  step_description : String
  cause : String
deriving Repr, DecidableEq

/-- Modelled from the spec: `StepExecutor.execute_step` is absent from
the repository sources (`core.py` calls `self.executor.execute_step`,
but `executor.py` defines no such method, and `tools.py` defines no
`ToolRegistry`).  Following spec section 4.4: resolve the named tool
from the registry; an unknown tool name is itself a failure condition;
invoke the handler on the step's inputs and the entire accumulated
context; wrap any handler failure into a uniform failure carrying the
step's description and a human-readable cause, returned as a typed
failure value instead of a raised error. -/
def execute_step
    (registry : String → Option (List (String × String) → List StepResult → Except String String))
    (step : PlanStep) (context : List StepResult) : Except StepFailure String :=
  match registry step.tool with
  | none =>
    .error { step_description := step.description
             cause := "Unknown tool: " ++ step.tool }
  | some handler =>
    match handler step.inputs context with
    | .ok text => .ok text
    | .error e => .error { step_description := step.description, cause := e }

/-- Whitespace collapsing: split on whitespace, drop empty fragments,
rejoin with single spaces. -/
def collapseWhitespace (s : String) : String :=
  " ".intercalate ((s.split Char.isWhitespace).filter (fun t => t ≠ ""))

/-- Modelled from the spec: the `web_fetch` tool handler is absent from
the repository sources (no `ToolRegistry` module exists under the agent
package).  Following spec section 4.3: issue a GET through the web
transport client with a 10-second deadline (`transport url 10`); the
external markup parser (`parseMarkup`) strips script/style content;
collapse whitespace and truncate to the first 3000 characters; any
network, HTTP-status, or parse error is caught and converted into the
text value `"Error fetching URL: <cause>"`, never a raised failure. -/
def web_fetch (transport : String → Nat → Except String String)
    (parseMarkup : String → Except String String) (url : String) : String :=
  match transport url 10 with
  | .error e => "Error fetching URL: " ++ e
  | .ok body =>
    match parseMarkup body with
    | .error e => "Error fetching URL: " ++ e
    | .ok text => (collapseWhitespace text).take 3000

/-- The 1-based position in a result list of the last entry with status
`completed`, `0` when no entry has it: the specification-side function
used to state what `steps_completed` equals after a run. -/
def lastSuccessPos (rs : List StepResult) : Nat :=
  rs.length - List.findIdx (fun r => r.status == "completed") rs.reverse

/-- C7: for every goal text, on parse failure of the collaborator's
response the goal interpreter returns (no error surfaced) the
deterministic default Understanding: objective is the original goal text
verbatim, topics empty, deliverable_type "report", scope
"comprehensive", success_criteria a fixed three-item list. -/
theorem c7_goal_interpreter_fallback (now : Nat → Nat) (goal : String)
    (st : AgentState) :
    (understand_goal now none goal st).1 = default_understanding goal ∧
    (understand_goal now none goal st).1.objective = goal ∧
    (understand_goal now none goal st).1.topics = [] ∧
    (understand_goal now none goal st).1.deliverable_type = "report" ∧
    (understand_goal now none goal st).1.scope = "comprehensive" ∧
    (understand_goal now none goal st).1.success_criteria =
      ["Complete research", "Accurate information", "Well-structured output"] :=
  ⟨rfl, rfl, rfl, rfl, rfl, rfl⟩

/-- C3: the step executor wraps every handler failure — including an
unknown tool name — into a uniform typed failure value carrying the
step's description and a human-readable cause, returned to the caller
rather than propagated as a raw raised error; moreover every failure
value it ever returns carries the step's description. -/
theorem c3_step_failures_wrapped
    (registry : String → Option (List (String × String) → List StepResult → Except String String))
    (step : PlanStep) (context : List StepResult) :
    (registry step.tool = none →
      execute_step registry step context =
        .error { step_description := step.description
                 cause := "Unknown tool: " ++ step.tool }) ∧
    (∀ handler e, registry step.tool = some handler →
      handler step.inputs context = .error e →
      execute_step registry step context =
        .error { step_description := step.description, cause := e }) ∧
    (∀ f, execute_step registry step context = .error f →
      f.step_description = step.description) := by
  refine ⟨fun h => by simp [execute_step, h], fun handler e h he => by simp [execute_step, h, he], fun f hf => ?_⟩
  unfold execute_step at hf
  cases hreg : registry step.tool with
  | none => rw [hreg] at hf; dsimp only at hf; injection hf with h; rw [← h]
  | some handler =>
    rw [hreg] at hf
    dsimp only at hf
    cases hh : handler step.inputs context with
    | ok t => rw [hh] at hf; cases hf
    | error e => rw [hh] at hf; injection hf with h; rw [← h]

/-- Witness for C3 at a concrete input: looking up an unknown tool name
yields the wrapped typed failure. -/
theorem c3_step_failures_wrapped_witness :
    execute_step (fun _ => none)
      { step_number := 1, description := "d", tool := "t", inputs := []
        expected_output := "", dependencies := [], critical := some true } [] =
      .error { step_description := "d", cause := "Unknown tool: t" } :=
  (c3_step_failures_wrapped (fun _ => none)
    { step_number := 1, description := "d", tool := "t", inputs := []
      expected_output := "", dependencies := [], critical := some true } []).1 rfl

/-- C8: the web_fetch handler issues its GET with the 10-second
deadline (the result depends only on `transport url 10`), converts any
network or parse error into the text "Error fetching URL: <cause>", and
on success returns the whitespace-collapsed parsed body truncated to the
first 3000 characters — always a returned text value, never a raised
failure. -/
theorem c8_web_fetch_error_handling
    (transport : String → Nat → Except String String)
    (parseMarkup : String → Except String String) (url : String) :
    (∀ e, transport url 10 = .error e →
      web_fetch transport parseMarkup url = "Error fetching URL: " ++ e) ∧
    (∀ body e, transport url 10 = .ok body → parseMarkup body = .error e →
      web_fetch transport parseMarkup url = "Error fetching URL: " ++ e) ∧
    (∀ body text, transport url 10 = .ok body → parseMarkup body = .ok text →
      web_fetch transport parseMarkup url = (collapseWhitespace text).take 3000) ∧
    (∀ transport2 : String → Nat → Except String String,
      transport2 url 10 = transport url 10 →
      web_fetch transport2 parseMarkup url = web_fetch transport parseMarkup url) := by
  refine ⟨fun e he => by simp [web_fetch, he],
    fun body e hb he => by simp [web_fetch, hb, he],
    fun body text hb ht => by simp [web_fetch, hb, ht],
    fun transport2 h2 => by simp [web_fetch, h2]⟩

/-- Witness for C8 at a concrete input: an unreachable URL produces the
error-flavored text value. -/
theorem c8_web_fetch_error_handling_witness :
    web_fetch (fun _ _ => .error "unreachable") (fun b => .ok b) "http:u" =
      "Error fetching URL: " ++ "unreachable" :=
  (c8_web_fetch_error_handling (fun _ _ => .error "unreachable")
    (fun b => .ok b) "http:u").1 "unreachable" rfl

/-- C6: every fallback plan has at least 2 steps and exactly one
terminal synthesize step; for an Understanding with exactly 2 topics it
is exactly 4 steps: an initial critical web_search on the objective, two
topic web_search steps with dependencies [1] and critical false, and a
final synthesize step with dependencies [1, 2, 3]. -/
theorem c6_fallback_plan_shape :
    (∀ u : Understanding,
      2 ≤ (_create_fallback_plan u).length ∧
      List.countP (fun s => s.tool == "synthesize") (_create_fallback_plan u) = 1 ∧
      ((_create_fallback_plan u).getLast?).map PlanStep.tool = some "synthesize") ∧
    (∀ u : Understanding, ∀ t1 t2 : String, u.topics = [t1, t2] →
      _create_fallback_plan u =
        [{ step_number := 1
           description := "Search for information about " ++ u.objective
           tool := "web_search"
           inputs := [("query", u.objective)]
           expected_output := "Initial research findings"
           dependencies := []
           critical := some true },
         { step_number := 2
           description := "Deep dive into " ++ t1
           tool := "web_search"
           inputs := [("query", t1)]
           expected_output := "Detailed information about " ++ t1
           dependencies := [1]
           critical := some false },
         { step_number := 3
           description := "Deep dive into " ++ t2
           tool := "web_search"
           inputs := [("query", t2)]
           expected_output := "Detailed information about " ++ t2
           dependencies := [1]
           critical := some false },
         { step_number := 4
           description := "Synthesize all findings"
           tool := "synthesize"
           inputs := [("sources", "all_previous_steps")]
           expected_output := "Comprehensive summary"
           dependencies := [1, 2, 3]
           critical := some true }]) := by
  constructor
  · intro u
    refine ⟨?_, ?_, ?_⟩
    · simp [_create_fallback_plan]
    · simp [_create_fallback_plan, List.countP_append, List.countP_map,
        List.countP_cons, Function.comp]
    · simp [_create_fallback_plan, List.getLast?_cons, List.getLast?_append]
  · intro u t1 t2 h
    obtain ⟨obj, tps, dt, sc, cr⟩ := u
    dsimp only at h ⊢
    subst h
    rfl

/-- When the step loop reaches the terminal `completed` status, the
accumulated result list extends the initial one with exactly one entry
per remaining step, in order. -/
theorem execute_plan_go_completed_steps (now : Nat → Nat)
    (execStep : PlanStep → List StepResult → Except String String)
    (hasCb : Bool) :
    ∀ (steps : List PlanStep) (i : Nat) (results : ExecState)
      (st : AgentState) (ns : List ExecState),
    (execute_plan_go now execStep hasCb steps i results st ns).1.status = "completed" →
    (execute_plan_go now execStep hasCb steps i results st ns).1.step_results.map
        (fun r => r.step) =
      results.step_results.map (fun r => r.step) ++ steps := by
  intro steps
  induction steps with
  | nil => intro i results st ns _; simp [execute_plan_go]
  | cons s rest ih =>
    intro i results st ns h
    simp only [execute_plan_go] at h ⊢
    cases hex : execStep s results.step_results with
    | ok r =>
      simp only [hex] at h ⊢
      rw [ih _ _ _ _ h]
      simp
    | error e =>
      simp only [hex] at h ⊢
      by_cases hc : s.critical.getD true
      · simp only [hc, if_true] at h
        exact absurd h (by decide)
      · simp only [hc, if_false, Bool.false_eq_true] at h ⊢
        rw [ih _ _ _ _ h]
        simp

/-- `steps_completed` never exceeds the index bound: if it is at most
`i` on entry, it is at most `i` plus the number of remaining steps on
exit. -/
theorem execute_plan_go_steps_completed_le (now : Nat → Nat)
    (execStep : PlanStep → List StepResult → Except String String)
    (hasCb : Bool) :
    ∀ (steps : List PlanStep) (i : Nat) (results : ExecState)
      (st : AgentState) (ns : List ExecState),
    results.steps_completed ≤ i →
    (execute_plan_go now execStep hasCb steps i results st ns).1.steps_completed ≤
      i + steps.length := by
  intro steps
  induction steps with
  | nil => intro i results st ns hle; simpa [execute_plan_go] using hle
  | cons s rest ih =>
    intro i results st ns hle
    simp only [execute_plan_go]
    cases hex : execStep s results.step_results with
    | ok r =>
      simp only [hex]
      refine le_trans (ih (i + 1) _ _ _ (by simp)) ?_
      simp only [List.length_cons]
      omega
    | error e =>
      simp only [hex]
      by_cases hc : s.critical.getD true
      · simp only [hc, if_true]
        refine le_trans (show _ ≤ i from hle) ?_
        omega
      · simp only [hc, if_false, Bool.false_eq_true]
        refine le_trans (ih (i + 1) _ _ _ (by simpa using le_trans hle (by omega))) ?_
        simp only [List.length_cons]
        omega

/-- Whatever the termination mode, the step loop extends the result list
with entries for exactly a prefix of the remaining steps, in order. -/
theorem execute_plan_go_covers (now : Nat → Nat)
    (execStep : PlanStep → List StepResult → Except String String)
    (hasCb : Bool) :
    ∀ (steps : List PlanStep) (i : Nat) (results : ExecState)
      (st : AgentState) (ns : List ExecState),
    ∃ pre post, steps = pre ++ post ∧
      (execute_plan_go now execStep hasCb steps i results st ns).1.step_results.map
          (fun r => r.step) =
        results.step_results.map (fun r => r.step) ++ pre := by
  intro steps
  induction steps with
  | nil =>
    intro i results st ns
    exact ⟨[], [], by simp, by simp [execute_plan_go]⟩
  | cons s rest ih =>
    intro i results st ns
    simp only [execute_plan_go]
    cases hex : execStep s results.step_results with
    | ok r =>
      simp only [hex]
      obtain ⟨pre, post, hsplit, hmap⟩ := ih (i + 1)
        { results with
            step_results := results.step_results ++
              [{ step_number := i + 1, step := s, result := some r, error := none
                 status := "completed"
                 timestamp := now (log_event now st "step_started" (.step s)).tick }]
            steps_completed := i + 1 }
        (log_event now
          { log_event now st "step_started" (.step s) with
              tick := (log_event now st "step_started" (.step s)).tick + 1 }
          "step_completed" (.text r))
        (if hasCb then ns ++
          [{ results with
               step_results := results.step_results ++
                 [{ step_number := i + 1, step := s, result := some r, error := none
                    status := "completed"
                    timestamp := now (log_event now st "step_started" (.step s)).tick }]
               steps_completed := i + 1 }] else ns)
      refine ⟨s :: pre, post, by simp [hsplit], ?_⟩
      rw [hmap]
      simp
    | error e =>
      simp only [hex]
      by_cases hc : s.critical.getD true
      · simp only [hc, if_true]
        exact ⟨[s], rest, by simp, by simp⟩
      · simp only [hc, if_false, Bool.false_eq_true]
        obtain ⟨pre, post, hsplit, hmap⟩ := ih (i + 1)
          { results with
              step_results := results.step_results ++
                [{ step_number := i + 1, step := s, result := none, error := some e
                   status := "failed"
                   timestamp := now (log_event now st "step_started" (.step s)).tick }] }
          (log_event now
            { log_event now st "step_started" (.step s) with
                tick := (log_event now st "step_started" (.step s)).tick + 1 }
            "step_failed"
            (.stepRecord
              { step_number := i + 1, step := s, result := none, error := some e
                status := "failed"
                timestamp := now (log_event now st "step_started" (.step s)).tick }))
          ns
        refine ⟨s :: pre, post, by simp [hsplit], ?_⟩
        rw [hmap]
        simp

/-- Appending one entry: the last-success position becomes the new
length if the appended entry is completed, else it is unchanged. -/
theorem lastSuccessPos_append (l : List StepResult) (r : StepResult) :
    lastSuccessPos (l ++ [r]) =
      if r.status == "completed" then l.length + 1 else lastSuccessPos l := by
  unfold lastSuccessPos
  rw [List.reverse_append]
  simp only [List.reverse_singleton, List.singleton_append, List.findIdx_cons,
    List.length_append, List.length_singleton]
  cases h : r.status == "completed" with
  | true => simp
  | false =>
    simp only [cond_false, if_false, Bool.false_eq_true]
    omega

/-- The loop invariant behind C10: `steps_completed` always equals the
1-based position of the last completed entry of `step_results`. -/
theorem execute_plan_go_last_success (now : Nat → Nat)
    (execStep : PlanStep → List StepResult → Except String String)
    (hasCb : Bool) :
    ∀ (steps : List PlanStep) (i : Nat) (results : ExecState)
      (st : AgentState) (ns : List ExecState),
    results.step_results.length = i →
    results.steps_completed = lastSuccessPos results.step_results →
    (execute_plan_go now execStep hasCb steps i results st ns).1.steps_completed =
      lastSuccessPos
        (execute_plan_go now execStep hasCb steps i results st ns).1.step_results := by
  intro steps
  induction steps with
  | nil =>
    intro i results st ns _ hpos
    simpa [execute_plan_go] using hpos
  | cons s rest ih =>
    intro i results st ns hlen hpos
    simp only [execute_plan_go]
    cases hex : execStep s results.step_results with
    | ok r =>
      simp only [hex]
      refine ih (i + 1) _ _ _ (by simp [hlen]) ?_
      simp [lastSuccessPos_append, hlen]
    | error e =>
      simp only [hex]
      by_cases hc : s.critical.getD true
      · simp only [hc, if_true]
        simpa [lastSuccessPos_append] using hpos
      · simp only [hc, if_false, Bool.false_eq_true]
        refine ih (i + 1) _ _ _ (by simp [hlen]) ?_
        simpa [lastSuccessPos_append] using hpos

/-- C2 (amended): once execute_plan terminates with status "completed",
step_results has exactly one entry per plan step and lists the steps in
plan order; steps_completed is at most that length (equality can fail
when trailing non-critical steps failed, see the counterexample). -/
theorem c2_completed_results_mirror_plan (now : Nat → Nat)
    (execStep : PlanStep → List StepResult → Except String String)
    (hasCb : Bool) (plan : List PlanStep) (st : AgentState)
    (h : (execute_plan now execStep hasCb plan st).1.status = "completed") :
    (execute_plan now execStep hasCb plan st).1.step_results.map
        (fun r => r.step) = plan ∧
    (execute_plan now execStep hasCb plan st).1.step_results.length = plan.length ∧
    (execute_plan now execStep hasCb plan st).1.steps_completed ≤ plan.length := by
  have h1 := execute_plan_go_completed_steps now execStep hasCb plan 0
    { steps_completed := 0, total_steps := plan.length, step_results := []
      final_output := none, status := "in_progress" } st [] h
  have h2 := execute_plan_go_steps_completed_le now execStep hasCb plan 0
    { steps_completed := 0, total_steps := plan.length, step_results := []
      final_output := none, status := "in_progress" } st [] (le_refl 0)
  simp only [List.map_nil, List.nil_append] at h1
  refine ⟨h1, ?_, by simpa using h2⟩
  have := congrArg List.length h1
  simpa using this

/-- C2, counterexample to the claim as stated: a one-step plan whose
only (non-critical) step fails ends with status "completed",
one step result, and steps_completed = 0, so
len(step_results) = steps_completed fails. -/
theorem c2_counterexample :
    (execute_plan id (fun _ _ => .error "boom") false
      [{ step_number := 1, description := "A", tool := "t", inputs := []
         expected_output := "", dependencies := [], critical := some false }]
      { tick := 0, log := [] }).1.status = "completed" ∧
    (execute_plan id (fun _ _ => .error "boom") false
      [{ step_number := 1, description := "A", tool := "t", inputs := []
         expected_output := "", dependencies := [], critical := some false }]
      { tick := 0, log := [] }).1.step_results.length = 1 ∧
    (execute_plan id (fun _ _ => .error "boom") false
      [{ step_number := 1, description := "A", tool := "t", inputs := []
         expected_output := "", dependencies := [], critical := some false }]
      { tick := 0, log := [] }).1.steps_completed = 0 := by
  refine ⟨rfl, rfl, rfl⟩

/-- Witness for C2 at a concrete input: a one-step plan whose step
succeeds terminates completed and satisfies the amended invariant. -/
theorem c2_completed_results_mirror_plan_witness :
    (execute_plan id (fun _ _ => .ok "r") false
      [{ step_number := 1, description := "A", tool := "t", inputs := []
         expected_output := "", dependencies := [], critical := some true }]
      { tick := 0, log := [] }).1.status = "completed" ∧
    ((execute_plan id (fun _ _ => .ok "r") false
      [{ step_number := 1, description := "A", tool := "t", inputs := []
         expected_output := "", dependencies := [], critical := some true }]
      { tick := 0, log := [] }).1.step_results.map (fun r => r.step) =
      [{ step_number := 1, description := "A", tool := "t", inputs := []
         expected_output := "", dependencies := [], critical := some true }] ∧
    (execute_plan id (fun _ _ => .ok "r") false
      [{ step_number := 1, description := "A", tool := "t", inputs := []
         expected_output := "", dependencies := [], critical := some true }]
      { tick := 0, log := [] }).1.step_results.length = 1 ∧
    (execute_plan id (fun _ _ => .ok "r") false
      [{ step_number := 1, description := "A", tool := "t", inputs := []
         expected_output := "", dependencies := [], critical := some true }]
      { tick := 0, log := [] }).1.steps_completed ≤ 1) :=
  ⟨rfl, c2_completed_results_mirror_plan id (fun _ _ => .ok "r") false
    [{ step_number := 1, description := "A", tool := "t", inputs := []
       expected_output := "", dependencies := [], critical := some true }]
    { tick := 0, log := [] } rfl⟩

/-- C10: after execute_plan returns, steps_completed equals the 1-based
position of the last successfully completed entry of step_results (0 if
none succeeded): a failed step never updates it, and a success after
absorbed non-critical failures sets it to that step's position; and
step_results covers, in order, a prefix of the plan, so positions in
step_results are plan positions. -/
theorem c10_steps_completed_last_success (now : Nat → Nat)
    (execStep : PlanStep → List StepResult → Except String String)
    (hasCb : Bool) (plan : List PlanStep) (st : AgentState) :
    (execute_plan now execStep hasCb plan st).1.steps_completed =
      lastSuccessPos (execute_plan now execStep hasCb plan st).1.step_results ∧
    ∃ pre post, plan = pre ++ post ∧
      (execute_plan now execStep hasCb plan st).1.step_results.map
        (fun r => r.step) = pre := by
  constructor
  · exact execute_plan_go_last_success now execStep hasCb plan 0
      { steps_completed := 0, total_steps := plan.length, step_results := []
        final_output := none, status := "in_progress" } st [] rfl rfl
  · have := execute_plan_go_covers now execStep hasCb plan 0
      { steps_completed := 0, total_steps := plan.length, step_results := []
        final_output := none, status := "in_progress" } st []
    simpa using this

/-- C5: when a step's executor call fails, the loop appends a failed
StepResult and: if the step is non-critical, continues with the next
step from the extended state (failure absorbed); if critical, sets
status "failed" and returns immediately with exactly the results
accumulated so far (no later step executes).  In particular the plan
[A(non-critical, fails), B(critical, succeeds)] ends completed with
steps_completed = 2, and [A(critical, fails), B] ends failed with
exactly one step result. -/
theorem c5_failure_policy :
    (∀ (now : Nat → Nat)
       (execStep : PlanStep → List StepResult → Except String String)
       (hasCb : Bool) (s : PlanStep) (rest : List PlanStep) (i : Nat)
       (results : ExecState) (st : AgentState) (ns : List ExecState) (e : String),
      execStep s results.step_results = Except.error e →
      ((s.critical.getD true = false →
        execute_plan_go now execStep hasCb (s :: rest) i results st ns =
          execute_plan_go now execStep hasCb rest (i + 1)
            { results with
                step_results := results.step_results ++
                  [{ step_number := i + 1, step := s, result := none
                     error := some e, status := "failed"
                     timestamp := now (st.tick + 1) }] }
            { tick := st.tick + 1 + 1 + 1
              log := (st.log ++
                [{ timestamp := now st.tick, event := "step_started"
                   data := EventData.step s }]) ++
                [{ timestamp := now (st.tick + 1 + 1), event := "step_failed"
                   data := EventData.stepRecord
                     { step_number := i + 1, step := s, result := none
                       error := some e, status := "failed"
                       timestamp := now (st.tick + 1) } }] }
            ns) ∧
      (s.critical.getD true = true →
        execute_plan_go now execStep hasCb (s :: rest) i results st ns =
          ({ results with
               step_results := results.step_results ++
                 [{ step_number := i + 1, step := s, result := none
                    error := some e, status := "failed"
                    timestamp := now (st.tick + 1) }]
               status := "failed" },
           { tick := st.tick + 1 + 1 + 1
             log := (st.log ++
               [{ timestamp := now st.tick, event := "step_started"
                  data := EventData.step s }]) ++
               [{ timestamp := now (st.tick + 1 + 1), event := "step_failed"
                  data := EventData.stepRecord
                    { step_number := i + 1, step := s, result := none
                      error := some e, status := "failed"
                      timestamp := now (st.tick + 1) } }] },
           ns)))) ∧
    ((execute_plan id
        (fun s _ => if s.description == "A" then .error "boom" else .ok "ok") false
        [{ step_number := 1, description := "A", tool := "t", inputs := []
           expected_output := "", dependencies := [], critical := some false },
         { step_number := 2, description := "B", tool := "t", inputs := []
           expected_output := "", dependencies := [], critical := some true }]
        { tick := 0, log := [] }).1.status = "completed" ∧
     (execute_plan id
        (fun s _ => if s.description == "A" then .error "boom" else .ok "ok") false
        [{ step_number := 1, description := "A", tool := "t", inputs := []
           expected_output := "", dependencies := [], critical := some false },
         { step_number := 2, description := "B", tool := "t", inputs := []
           expected_output := "", dependencies := [], critical := some true }]
        { tick := 0, log := [] }).1.steps_completed = 2 ∧
     (execute_plan id
        (fun s _ => if s.description == "A" then .error "boom" else .ok "ok") false
        [{ step_number := 1, description := "A", tool := "t", inputs := []
           expected_output := "", dependencies := [], critical := some false },
         { step_number := 2, description := "B", tool := "t", inputs := []
           expected_output := "", dependencies := [], critical := some true }]
        { tick := 0, log := [] }).1.step_results.map (fun r => r.status) =
       ["failed", "completed"]) ∧
    ((execute_plan id
        (fun s _ => if s.description == "A" then .error "boom" else .ok "ok") false
        [{ step_number := 1, description := "A", tool := "t", inputs := []
           expected_output := "", dependencies := [], critical := some true },
         { step_number := 2, description := "B", tool := "t", inputs := []
           expected_output := "", dependencies := [], critical := some true }]
        { tick := 0, log := [] }).1.status = "failed" ∧
     (execute_plan id
        (fun s _ => if s.description == "A" then .error "boom" else .ok "ok") false
        [{ step_number := 1, description := "A", tool := "t", inputs := []
           expected_output := "", dependencies := [], critical := some true },
         { step_number := 2, description := "B", tool := "t", inputs := []
           expected_output := "", dependencies := [], critical := some true }]
        { tick := 0, log := [] }).1.step_results.length = 1) := by
  refine ⟨?_, ⟨rfl, rfl, rfl⟩, ⟨rfl, rfl⟩⟩
  intro now execStep hasCb s rest i results st ns e hfail
  constructor
  · intro hc
    simp only [execute_plan_go, hfail, log_event, hc, Bool.false_eq_true, if_false]
  · intro hc
    simp only [execute_plan_go, hfail, log_event, hc, if_true]

/-- Witness for C5 at a concrete input: a critical failing step halts
the loop immediately with exactly the accumulated failed result. -/
theorem c5_failure_policy_witness :
    ({ step_number := 1, description := "A", tool := "t", inputs := []
       expected_output := "", dependencies := []
       critical := some true : PlanStep }.critical.getD true = true) ∧
    ((fun (_ : PlanStep) (_ : List StepResult) =>
        (Except.error "boom" : Except String String))
      { step_number := 1, description := "A", tool := "t", inputs := []
        expected_output := "", dependencies := [], critical := some true }
      ([] : List StepResult) = Except.error "boom") ∧
    execute_plan_go id
      (fun _ _ => (Except.error "boom" : Except String String)) false
      [{ step_number := 1, description := "A", tool := "t", inputs := []
         expected_output := "", dependencies := [], critical := some true }]
      0
      { steps_completed := 0, total_steps := 1, step_results := []
        final_output := none, status := "in_progress" }
      { tick := 0, log := [] } [] =
      ({ steps_completed := 0, total_steps := 1
         step_results :=
           [{ step_number := 1
              step := { step_number := 1, description := "A", tool := "t"
                        inputs := [], expected_output := "", dependencies := []
                        critical := some true }
              result := none, error := some "boom", status := "failed"
              timestamp := 1 }]
         final_output := none, status := "failed" },
       { tick := 3
         log :=
           [{ timestamp := 0, event := "step_started"
              data := EventData.step
                { step_number := 1, description := "A", tool := "t", inputs := []
                  expected_output := "", dependencies := [], critical := some true } },
            { timestamp := 2, event := "step_failed"
              data := EventData.stepRecord
                { step_number := 1
                  step := { step_number := 1, description := "A", tool := "t"
                            inputs := [], expected_output := "", dependencies := []
                            critical := some true }
                  result := none, error := some "boom", status := "failed"
                  timestamp := 1 } }] },
       ([] : List ExecState)) :=
  ⟨rfl, rfl,
    (c5_failure_policy.1 id (fun _ _ => Except.error "boom") false
      { step_number := 1, description := "A", tool := "t", inputs := []
        expected_output := "", dependencies := [], critical := some true }
      [] 0
      { steps_completed := 0, total_steps := 1, step_results := []
        final_output := none, status := "in_progress" }
      { tick := 0, log := [] } [] "boom" rfl).2 rfl⟩

/-- C4, counterexample to the claim as stated: a successful
subscriber-attached run delivers the understanding, planning and
per-step notifications, but no final notification carrying the
RunResult is ever delivered (the trace of a successful 1-step run has
exactly 3 notifications, none of them final). -/
theorem c4_counterexample :
    (run id none
      (some [{ step_number := 1, description := "B", tool := "t", inputs := []
               expected_output := "", dependencies := [], critical := some true }])
      (fun _ _ => .ok "r") (fun _ => "out") true "g").1.success = true ∧
    (run id none
      (some [{ step_number := 1, description := "B", tool := "t", inputs := []
               expected_output := "", dependencies := [], critical := some true }])
      (fun _ _ => .ok "r") (fun _ => "out") true "g").2.length = 3 ∧
    (run id none
      (some [{ step_number := 1, description := "B", tool := "t", inputs := []
               expected_output := "", dependencies := [], critical := some true }])
      (fun _ _ => .ok "r") (fun _ => "out") true "g").2.countP
        Notification.isFinal = 0 := by
  refine ⟨rfl, rfl, rfl⟩

/-- C4 (amended): with a progress subscriber attached, the orchestrator
invokes it with the coarse "understanding" notification carrying the
Understanding, then the coarse "planning" notification carrying the
Plan, then exactly the per-step notifications emitted by the execution
engine; no final notification carrying the complete RunResult is ever
delivered. -/
theorem c4_progress_notifications (now : Nat → Nat)
    (parsedU : Option Understanding) (parsedPlan : Option (List PlanStep))
    (execStep : PlanStep → List StepResult → Except String String)
    (complete : String → String) (goal : String) :
    (run now parsedU parsedPlan execStep complete true goal).2 =
      Notification.stage "understanding"
          (some (understand_goal now parsedU goal { tick := 0, log := [] }).1) none ::
        Notification.stage "planning" none
          (some (create_plan now parsedPlan
              (understand_goal now parsedU goal { tick := 0, log := [] }).1
              (understand_goal now parsedU goal { tick := 0, log := [] }).2).1) ::
        (execute_plan now execStep true
            (create_plan now parsedPlan
              (understand_goal now parsedU goal { tick := 0, log := [] }).1
              (understand_goal now parsedU goal { tick := 0, log := [] }).2).1
            (create_plan now parsedPlan
              (understand_goal now parsedU goal { tick := 0, log := [] }).1
              (understand_goal now parsedU goal { tick := 0, log := [] }).2).2).2.2.map
          Notification.progress ∧
    ∀ r : RunResult,
      Notification.final r ∉ (run now parsedU parsedPlan execStep complete true goal).2 := by
  have h : (run now parsedU parsedPlan execStep complete true goal).2 =
      Notification.stage "understanding"
          (some (understand_goal now parsedU goal { tick := 0, log := [] }).1) none ::
        Notification.stage "planning" none
          (some (create_plan now parsedPlan
              (understand_goal now parsedU goal { tick := 0, log := [] }).1
              (understand_goal now parsedU goal { tick := 0, log := [] }).2).1) ::
        (execute_plan now execStep true
            (create_plan now parsedPlan
              (understand_goal now parsedU goal { tick := 0, log := [] }).1
              (understand_goal now parsedU goal { tick := 0, log := [] }).2).1
            (create_plan now parsedPlan
              (understand_goal now parsedU goal { tick := 0, log := [] }).1
              (understand_goal now parsedU goal { tick := 0, log := [] }).2).2).2.2.map
          Notification.progress := rfl
  refine ⟨h, ?_⟩
  intro r hr
  rw [h] at hr
  simp only [List.mem_cons, List.mem_map] at hr
  rcases hr with h1 | h1 | ⟨s, _, h1⟩ <;> exact absurd h1 (by simp)

/-- C1, counterexample to the claim as stated: when the engine
terminates failed (critical step failed), the orchestrator does return
success true carrying the failed ExecutionState, but the output is
present, not absent, and synthesis is performed (a results_synthesized
event is logged). -/
theorem c1_counterexample :
    (run id none
      (some [{ step_number := 1, description := "A", tool := "t", inputs := []
               expected_output := "", dependencies := [], critical := some true }])
      (fun _ _ => .error "boom") (fun _ => "OUT") false "g").1.success = true ∧
    (run id none
      (some [{ step_number := 1, description := "A", tool := "t", inputs := []
               expected_output := "", dependencies := [], critical := some true }])
      (fun _ _ => .error "boom") (fun _ => "OUT") false "g").1.execution.map
        (fun es => es.status) = some "failed" ∧
    (run id none
      (some [{ step_number := 1, description := "A", tool := "t", inputs := []
               expected_output := "", dependencies := [], critical := some true }])
      (fun _ _ => .error "boom") (fun _ => "OUT") false "g").1.output = some "OUT" ∧
    "results_synthesized" ∈
      ((run id none
        (some [{ step_number := 1, description := "A", tool := "t", inputs := []
                 expected_output := "", dependencies := [], critical := some true }])
        (fun _ _ => .error "boom") (fun _ => "OUT") false "g").1.log.map
          (fun en => en.event)) := by
  refine ⟨rfl, rfl, rfl, by decide⟩

/-- C1 (amended): when the execution engine terminates with status
"failed", the orchestrator still returns an envelope with success true
carrying that failed ExecutionState, but synthesis IS performed for the
run (a results_synthesized event is logged) and output is present,
carrying the synthesis of the completed steps; the execution state in
the envelope is the failed one with its final_output set to that
synthesis. -/
theorem c1_failed_run_envelope (now : Nat → Nat)
    (parsedU : Option Understanding) (parsedPlan : Option (List PlanStep))
    (execStep : PlanStep → List StepResult → Except String String)
    (complete : String → String) (hasCb : Bool) (goal : String)
    (h : (execute_plan now execStep hasCb
        (create_plan now parsedPlan
          (understand_goal now parsedU goal { tick := 0, log := [] }).1
          (understand_goal now parsedU goal { tick := 0, log := [] }).2).1
        (create_plan now parsedPlan
          (understand_goal now parsedU goal { tick := 0, log := [] }).1
          (understand_goal now parsedU goal { tick := 0, log := [] }).2).2).1.status =
      "failed") :
    (run now parsedU parsedPlan execStep complete hasCb goal).1.success = true ∧
    (run now parsedU parsedPlan execStep complete hasCb goal).1.execution.map
      (fun es => es.status) = some "failed" ∧
    (run now parsedU parsedPlan execStep complete hasCb goal).1.output =
      some (synthesize_results now complete
        (understand_goal now parsedU goal { tick := 0, log := [] }).1.objective
        (execute_plan now execStep hasCb
          (create_plan now parsedPlan
            (understand_goal now parsedU goal { tick := 0, log := [] }).1
            (understand_goal now parsedU goal { tick := 0, log := [] }).2).1
          (create_plan now parsedPlan
            (understand_goal now parsedU goal { tick := 0, log := [] }).1
            (understand_goal now parsedU goal { tick := 0, log := [] }).2).2).1
        (execute_plan now execStep hasCb
          (create_plan now parsedPlan
            (understand_goal now parsedU goal { tick := 0, log := [] }).1
            (understand_goal now parsedU goal { tick := 0, log := [] }).2).1
          (create_plan now parsedPlan
            (understand_goal now parsedU goal { tick := 0, log := [] }).1
            (understand_goal now parsedU goal { tick := 0, log := [] }).2).2).2.1).1 ∧
    "results_synthesized" ∈
      ((run now parsedU parsedPlan execStep complete hasCb goal).1.log.map
        (fun en => en.event)) := by
  refine ⟨rfl, ?_, rfl, ?_⟩
  · exact congrArg some h
  · simp [run, synthesize_results, log_event]

/-- Witness for C1 at a concrete input: a run whose only critical step
fails satisfies the hypothesis and the amended conclusion. -/
theorem c1_failed_run_envelope_witness :
    (execute_plan id (fun _ _ => (Except.error "boom" : Except String String)) false
      (create_plan id
        (some [{ step_number := 1, description := "A", tool := "t", inputs := []
                 expected_output := "", dependencies := [], critical := some true }])
        (understand_goal id none "g" { tick := 0, log := [] }).1
        (understand_goal id none "g" { tick := 0, log := [] }).2).1
      (create_plan id
        (some [{ step_number := 1, description := "A", tool := "t", inputs := []
                 expected_output := "", dependencies := [], critical := some true }])
        (understand_goal id none "g" { tick := 0, log := [] }).1
        (understand_goal id none "g" { tick := 0, log := [] }).2).2).1.status =
      "failed" ∧
    ((run id none
      (some [{ step_number := 1, description := "A", tool := "t", inputs := []
               expected_output := "", dependencies := [], critical := some true }])
      (fun _ _ => .error "boom") (fun _ => "OUT") false "g").1.success = true ∧
    (run id none
      (some [{ step_number := 1, description := "A", tool := "t", inputs := []
               expected_output := "", dependencies := [], critical := some true }])
      (fun _ _ => .error "boom") (fun _ => "OUT") false "g").1.execution.map
        (fun es => es.status) = some "failed" ∧
    (run id none
      (some [{ step_number := 1, description := "A", tool := "t", inputs := []
               expected_output := "", dependencies := [], critical := some true }])
      (fun _ _ => .error "boom") (fun _ => "OUT") false "g").1.output = some "OUT" ∧
    "results_synthesized" ∈
      ((run id none
        (some [{ step_number := 1, description := "A", tool := "t", inputs := []
                 expected_output := "", dependencies := [], critical := some true }])
        (fun _ _ => .error "boom") (fun _ => "OUT") false "g").1.log.map
          (fun en => en.event))) :=
  ⟨rfl, c1_failed_run_envelope id none
    (some [{ step_number := 1, description := "A", tool := "t", inputs := []
             expected_output := "", dependencies := [], critical := some true }])
    (fun _ _ => .error "boom") (fun _ => "OUT") false "g" rfl⟩

/-- C9: for every successful 3-step run (every executor call succeeds),
the event log is exactly goal_understood, plan_created, then
(step_started, step_completed) for each of the 3 steps, then
results_synthesized; and under a strictly monotone wall clock the
entries' timestamps are strictly increasing. -/
theorem c9_event_log_three_steps (now : Nat → Nat)
    (parsedU : Option Understanding)
    (execStep : PlanStep → List StepResult → Except String String)
    (complete : String → String) (hasCb : Bool) (goal : String)
    (s1 s2 s3 : PlanStep)
    (hsucc : ∀ s ctx, ∃ r, execStep s ctx = Except.ok r)
    (hnow : StrictMono now) :
    ((run now parsedU (some [s1, s2, s3]) execStep complete hasCb goal).1.log.map
        (fun en => en.event) =
      ["goal_understood", "plan_created", "step_started", "step_completed",
       "step_started", "step_completed", "step_started", "step_completed",
       "results_synthesized"]) ∧
    List.Chain' (fun a b => a < b)
      ((run now parsedU (some [s1, s2, s3]) execStep complete hasCb goal).1.log.map
        (fun en => en.timestamp)) := by
  obtain ⟨r1, h1⟩ := hsucc s1 []
  obtain ⟨r2, h2⟩ := hsucc s2
    [{ step_number := 1, step := s1, result := some r1, error := none
       status := "completed", timestamp := now 3 }]
  obtain ⟨r3, h3⟩ := hsucc s3
    [{ step_number := 1, step := s1, result := some r1, error := none
       status := "completed", timestamp := now 3 },
     { step_number := 2, step := s2, result := some r2, error := none
       status := "completed", timestamp := now 6 }]
  have hts : ((run now parsedU (some [s1, s2, s3]) execStep complete hasCb
        goal).1.log.map (fun en => en.timestamp)) =
      [now 0, now 1, now 2, now 4, now 5, now 7, now 8, now 10, now 11] := by
    simp [run, understand_goal, create_plan, planner_create_plan, execute_plan,
      execute_plan_go, log_event, synthesize_results, h1, h2, h3]
  constructor
  · simp [run, understand_goal, create_plan, planner_create_plan, execute_plan,
      execute_plan_go, log_event, synthesize_results, h1, h2, h3]
  · rw [hts]
    simp only [List.chain'_cons, List.chain'_singleton]
    refine ⟨hnow (by omega), hnow (by omega), hnow (by omega), hnow (by omega),
      hnow (by omega), hnow (by omega), hnow (by omega), hnow (by omega), trivial⟩

/-- Witness for C9 at a concrete input: a 3-step plan with an
always-succeeding executor and the identity clock. -/
theorem c9_event_log_three_steps_witness :
    (∀ (s : PlanStep) (ctx : List StepResult), ∃ r,
      (fun (_ : PlanStep) (_ : List StepResult) =>
        (Except.ok "r" : Except String String)) s ctx = Except.ok r) ∧
    StrictMono (id : Nat → Nat) ∧
    (((run id none
        (some [{ step_number := 1, description := "A", tool := "t", inputs := []
                 expected_output := "", dependencies := [], critical := some true },
               { step_number := 2, description := "B", tool := "t", inputs := []
                 expected_output := "", dependencies := [], critical := some true },
               { step_number := 3, description := "C", tool := "t", inputs := []
                 expected_output := "", dependencies := [], critical := some true }])
        (fun _ _ => Except.ok "r") (fun _ => "out") false "g").1.log.map
          (fun en => en.event) =
      ["goal_understood", "plan_created", "step_started", "step_completed",
       "step_started", "step_completed", "step_started", "step_completed",
       "results_synthesized"]) ∧
    List.Chain' (fun a b => a < b)
      ((run id none
        (some [{ step_number := 1, description := "A", tool := "t", inputs := []
                 expected_output := "", dependencies := [], critical := some true },
               { step_number := 2, description := "B", tool := "t", inputs := []
                 expected_output := "", dependencies := [], critical := some true },
               { step_number := 3, description := "C", tool := "t", inputs := []
                 expected_output := "", dependencies := [], critical := some true }])
        (fun _ _ => Except.ok "r") (fun _ => "out") false "g").1.log.map
          (fun en => en.timestamp))) :=
  ⟨fun _ _ => ⟨"r", rfl⟩, strictMono_id,
    c9_event_log_three_steps id none (fun _ _ => Except.ok "r") (fun _ => "out")
      false "g"
      { step_number := 1, description := "A", tool := "t", inputs := []
        expected_output := "", dependencies := [], critical := some true }
      { step_number := 2, description := "B", tool := "t", inputs := []
        expected_output := "", dependencies := [], critical := some true }
      { step_number := 3, description := "C", tool := "t", inputs := []
        expected_output := "", dependencies := [], critical := some true }
      (fun _ _ => ⟨"r", rfl⟩) strictMono_id⟩

/-- Witness for C6 at a concrete input: the fallback plan for an
Understanding with exactly the two topics "x" and "y". -/
theorem c6_fallback_plan_shape_witness :
    ({ objective := "obj", topics := ["x", "y"], deliverable_type := "report"
       scope := "comprehensive", success_criteria := [] :
         Understanding }.topics = ["x", "y"]) ∧
    _create_fallback_plan
      { objective := "obj", topics := ["x", "y"], deliverable_type := "report"
        scope := "comprehensive", success_criteria := [] } =
      [{ step_number := 1
         description := "Search for information about " ++ "obj"
         tool := "web_search"
         inputs := [("query", "obj")]
         expected_output := "Initial research findings"
         dependencies := []
         critical := some true },
       { step_number := 2
         description := "Deep dive into " ++ "x"
         tool := "web_search"
         inputs := [("query", "x")]
         expected_output := "Detailed information about " ++ "x"
         dependencies := [1]
         critical := some false },
       { step_number := 3
         description := "Deep dive into " ++ "y"
         tool := "web_search"
         inputs := [("query", "y")]
         expected_output := "Detailed information about " ++ "y"
         dependencies := [1]
         critical := some false },
       { step_number := 4
         description := "Synthesize all findings"
         tool := "synthesize"
         inputs := [("sources", "all_previous_steps")]
         expected_output := "Comprehensive summary"
         dependencies := [1, 2, 3]
         critical := some true }] :=
  ⟨rfl, c6_fallback_plan_shape.2
    { objective := "obj", topics := ["x", "y"], deliverable_type := "report"
      scope := "comprehensive", success_criteria := [] } "x" "y" rfl⟩
